import Mathlib

/-!
# session-proxy: verification of the request-routing and session-state engine

Shallow embedding of the repository `zetavg/session-proxy` (JavaScript):

* `src/lib/session.mjs` — `resolveSessionPath`, `loadSession`, `saveSession`,
  `buildCookieHeader`;
* `src/commands/serve.mjs` — the HTTP request handler, `directFetch`,
  `filenameFromUrl`, `updateSessionCookies`.

Strings are modelled at the character level (JS strings are UTF-16 code unit
sequences; all the repository's own constants are ASCII, so `Char`-level
splitting/slicing coincides with the JS index arithmetic).  Host functionality
that is not part of the repository (Node's `path` module, `JSON`
stringify/parse, `URL` parsing, `Date.parse`, the network and the Playwright
browser) is modelled as follows: `node:path` (posix) is embedded directly
since `resolveSessionPath`'s contract depends on it; `JSON` round-tripping is
embedded as an AST-level encode/decode of the persisted storage-state format;
`URL` parsing, `Date.parse`, the network and the browser are oracles passed
in as parameters of the model.
-/

namespace SessionProxy

/-! ## Character-level string primitives

JS string operations are embedded at the character level (structural
definitions over `String.data`, so that every model evaluates inside the
kernel).  `startsWith`/`endsWith`/`includes`/`slice` coincide with the JS
operations on the inputs the repository manipulates; `trim` uses the ASCII
whitespace set, and `toLowerCase` lowers ASCII letters. -/

/-- JS `String.prototype.startsWith`. -/
def strStartsWith (s pre : String) : Bool :=
  pre.data.isPrefixOf s.data

/-- JS `String.prototype.endsWith`. -/
def strEndsWith (s post : String) : Bool :=
  post.data.isSuffixOf s.data

/-- JS `String.prototype.slice(n)` for a nonnegative start. -/
def strDrop (s : String) (n : Nat) : String :=
  ⟨s.data.drop n⟩

/-- JS `String.prototype.toLowerCase` (ASCII). -/
def jsToLower (s : String) : String :=
  ⟨s.data.map Char.toLower⟩

/-- JS `String.prototype.trim`. -/
def jsTrim (s : String) : String :=
  ⟨(((s.data.dropWhile Char.isWhitespace).reverse).dropWhile Char.isWhitespace).reverse⟩

/-- JS `String.prototype.split` with a single-character separator. -/
def splitOnChar (sep : Char) : List Char → List (List Char)
  | [] => [[]]
  | c :: rest =>
    let r := splitOnChar sep rest
    if c = sep then [] :: r
    else
      match r with
      | h :: t => (c :: h) :: t
      | [] => [[c]]

/-- String-level wrapper of `splitOnChar`. -/
def strSplitChar (sep : Char) (s : String) : List String :=
  (splitOnChar sep s.data).map (⟨·⟩)

/-! ## Node `path` (posix) model

`resolveSessionPath` uses `path.extname`, `path.isAbsolute` and `path.join`.
These are transliterated from Node's posix implementations. -/

/-- Node posix `path.isAbsolute`: nonempty and the first character is `/`. -/
def isAbsolute (p : String) : Bool :=
  match p.data with
  | c :: _ => c = '/'
  | [] => false

/-- Characters of the basename of `p`: trailing `/` stripped, then the part
after the last remaining `/` (mirrors the right-to-left scan in Node's
`path.posix.extname`). -/
def basenameChars (p : String) : List Char :=
  ((p.data.reverse.dropWhile (· = '/')).takeWhile (· ≠ '/')).reverse

/-- Node posix `path.extname`.  Returns the suffix of the basename from its
last `.` to the end; returns `""` when the basename has no dot, when the
last dot is its first character (dot-files such as `.bashrc`), or when the
basename is exactly `..`. -/
def extname (p : String) : String :=
  let b := basenameChars p
  if '.' ∈ b then
    let revAfter := b.reverse.takeWhile (· ≠ '.')
    let ext : List Char := '.' :: revAfter.reverse
    if b.length = ext.length then ""
    else if b = ['.', '.'] then ""
    else ⟨ext⟩
  else ""

/-- Segment processing of Node's `normalizeString`: resolves `.` and `..`
segments; `..` above the root is dropped for absolute paths and kept for
relative ones. -/
def normalizeSegs (isAbs : Bool) (segs : List String) : List String :=
  segs.foldl (fun acc seg =>
    if seg = "." then acc
    else if seg = ".." then
      if acc ≠ [] ∧ acc.getLast? ≠ some ".." then acc.dropLast
      else if isAbs then acc else acc ++ [".."]
    else acc ++ [seg]) []

/-- Node posix `path.normalize`. -/
def normalize (p : String) : String :=
  if p = "" then "." else
  let isAbs := isAbsolute p
  let trailing := strEndsWith p "/"
  let out := normalizeSegs isAbs ((strSplitChar '/' p).filter (· ≠ ""))
  let s := String.intercalate "/" out
  if s = "" then (if isAbs then "/" else if trailing then "./" else ".")
  else
    let s := if trailing then s ++ "/" else s
    if isAbs then "/" ++ s else s

/-- Node posix `path.join` restricted to two arguments (the only arity used
by the repository): empty arguments are skipped, the rest are joined with
`/` and normalized; all-empty input gives `"."`. -/
def pathJoin (a b : String) : String :=
  let parts := [a, b].filter (· ≠ "")
  if parts = [] then "." else normalize (String.intercalate "/" parts)

/-! ## `resolveSessionPath` (src/lib/session.mjs) -/

/-- Model of `resolveSessionPath(nameOrPath, sessionsDir)`: appends `.json` when
`path.extname` of the input is empty, then returns the result as-is when
absolute, else joins it under `sessionsDir`. -/
def resolveSessionPath (nameOrPath sessionsDir : String) : String :=
  let file := if extname nameOrPath = "" then nameOrPath ++ ".json" else nameOrPath
  if isAbsolute file then file else pathJoin sessionsDir file

/-! ## Data model: JSON values, cookies, session records

A persisted session file holds the Playwright storage-state JSON: an object
with a `cookies` array and an opaque `origins` section (§3 of the spec).
`Json` is the AST of the serialized form; numbers are modelled as `Rat`
(cookie `expires` values are epoch seconds and may be fractional, e.g.
`Date.parse(..) / 1000`). -/

inductive Json where
  | null
  | bool (b : Bool)
  | num (n : Rat)
  | str (s : String)
  | arr (elems : List Json)
  | obj (fields : List (String × Json))
deriving Repr

/-- Cookie record (§3): the fields read or written by the repository.
`secure`/`httpOnly` default to `false` (a JS object without the property and
one with the property `false` are indistinguishable to every truthiness test
in the code); `expires` and `sameSite` are genuinely optional. -/
structure Cookie where
  name : String
  value : String
  domain : String
  path : String
  secure : Bool := false
  httpOnly : Bool := false
  expires : Option Rat := none
  sameSite : Option String := none
deriving Repr, DecidableEq

/-- Session record: ordered cookie sequence plus the opaque per-origin
storage snapshot, passed through unmodified. -/
structure SessionState where
  cookies : List Cookie
  origins : Json
deriving Repr

/-- Lookup of a key in a JSON object's field list (first occurrence). -/
def jLookup (fields : List (String × Json)) (k : String) : Option Json :=
  (fields.find? (fun kv => kv.1 = k)).map (·.2)

/-- JSON encoding of a cookie, mirroring `JSON.stringify` on the JS cookie
object: properties that are JS `undefined` (`expires`, `sameSite` when never
assigned) are omitted from the serialized object. -/
def encodeCookie (c : Cookie) : Json :=
  .obj ([("name", .str c.name), ("value", .str c.value),
         ("domain", .str c.domain), ("path", .str c.path),
         ("secure", .bool c.secure), ("httpOnly", .bool c.httpOnly)]
    ++ (match c.expires with | some e => [("expires", .num e)] | none => [])
    ++ (match c.sameSite with | some s => [("sameSite", .str s)] | none => []))

/-- JSON decoding of a cookie from the storage-state format. -/
def decodeCookie : Json → Option Cookie
  | .obj fields =>
    match jLookup fields "name", jLookup fields "value",
          jLookup fields "domain", jLookup fields "path" with
    | some (.str n), some (.str v), some (.str d), some (.str p) =>
      some
        { name := n, value := v, domain := d, path := p
          secure := match jLookup fields "secure" with
            | some (.bool b) => b
            | _ => false
          httpOnly := match jLookup fields "httpOnly" with
            | some (.bool b) => b
            | _ => false
          expires := match jLookup fields "expires" with
            | some (.num e) => some e
            | _ => none
          sameSite := match jLookup fields "sameSite" with
            | some (.str s) => some s
            | _ => none }
    | _, _, _, _ => none
  | _ => none

/-- Decode a list of serialized cookies; fails if any element fails. -/
def decodeCookies : List Json → Option (List Cookie)
  | [] => some []
  | j :: rest =>
    match decodeCookie j, decodeCookies rest with
    | some c, some cs => some (c :: cs)
    | _, _ => none

/-- JSON encoding of a session record (the content `saveSession` writes via
`JSON.stringify(state, null, 2)`, up to whitespace). -/
def encodeState (s : SessionState) : Json :=
  .obj [("cookies", .arr (s.cookies.map encodeCookie)), ("origins", s.origins)]

/-- JSON decoding of a session record (the shape `loadSession` hands to the
rest of the engine after `JSON.parse`). -/
def decodeState : Json → Option SessionState
  | .obj fields =>
    match jLookup fields "cookies" with
    | some (.arr cs) =>
      match decodeCookies cs with
      | some cookies =>
        some { cookies := cookies, origins := (jLookup fields "origins").getD .null }
      | none => none
    | _ => none
  | _ => none

/-! ## Session store (src/lib/session.mjs)

The file system is modelled as an association list from paths to parsed JSON
file contents; a write shadows earlier entries for the same path. -/

def FileSystem : Type := List (String × Json)

/-- Read a file: first (most recent) entry for the path. -/
def fsRead (fs : FileSystem) (p : String) : Option Json :=
  (List.find? (fun kv => kv.1 = p) fs).map (·.2)

inductive LoadError where
  | notFound
  | parseError
deriving Repr, DecidableEq

/-- Model of `loadSession(sessionPath)`: reads and parses the session file; rejects
when the file is absent or its content is not a valid serialized state. -/
def loadSession (fs : FileSystem) (sessionPath : String) : Except LoadError SessionState :=
  match fsRead fs sessionPath with
  | none => .error .notFound
  | some j =>
    match decodeState j with
    | some s => .ok s
    | none => .error .parseError

/-- Model of `saveSession(sessionPath, state)`: writes `JSON.stringify(state)` to the
session file (parent-directory creation has no observable effect here). -/
def saveSession (fs : FileSystem) (sessionPath : String) (state : SessionState) : FileSystem :=
  (sessionPath, encodeState state) :: fs

/-! ## Cookie matcher: `buildCookieHeader` (src/lib/session.mjs)

`buildCookieHeader` parses the target with `new URL(targetUrl)` and reads
`hostname`, `pathname`, `protocol`; `URL` here is that parsed view. -/

structure URL where
  protocol : String
  hostname : String
  pathname : String
deriving Repr, DecidableEq

/-- Cookie domain normalized by prefixing `.` when absent. -/
def normDomain (c : Cookie) : String :=
  if strStartsWith c.domain "." then c.domain else "." ++ c.domain

/-- Domain check: the `.`-prefixed hostname must end with (or equal) the
normalized cookie domain. -/
def domainCheck (hostname : String) (c : Cookie) : Bool :=
  let hostDomain := "." ++ hostname
  strEndsWith hostDomain (normDomain c) || hostDomain = normDomain c

/-- Path check: passes when the cookie path is falsy (empty) or the target
pathname starts with it. -/
def pathCheck (pathname : String) (c : Cookie) : Bool :=
  c.path = "" || strStartsWith pathname c.path

/-- Secure check: a `secure` cookie needs an `https:` target. -/
def secureCheck (protocol : String) (c : Cookie) : Bool :=
  !c.secure || protocol = "https:"

/-- Expiry check: excluded only when `expires` is truthy, positive and
strictly in the past (`now` is `Date.now() / 1000`). -/
def expiryCheck (now : Rat) (c : Cookie) : Bool :=
  match c.expires with
  | some e => !(e ≠ 0 && 0 < e && e < now)
  | none => true

/-- The filter predicate of `buildCookieHeader`: the source's chain of
guarded `return false` statements, written as the equivalent conjunction. -/
def cookieMatches (now : Rat) (u : URL) (c : Cookie) : Bool :=
  domainCheck u.hostname c && pathCheck u.pathname c &&
    secureCheck u.protocol c && expiryCheck now c

/-- Model of `buildCookieHeader(state, targetUrl)`: `name=value` pairs of the matching
cookies, in their original relative order, joined by `"; "`. -/
def buildCookieHeader (now : Rat) (state : SessionState) (u : URL) : String :=
  if state.cookies = [] then ""
  else
    String.intercalate "; "
      (((state.cookies.filter (cookieMatches now u)).map
        (fun c => c.name ++ "=" ++ c.value)))

/-! ## Cookie merger: `updateSessionCookies` (src/commands/serve.mjs)

`Date.parse` is a host calendar parser; it is passed in as an oracle
`dateParse : String → Option Rat` returning milliseconds (`none` = `NaN`). -/

/-- Split `name=value` at the first `=` (`indexOf('=')`); `none` when the
string contains no `=` (the directive is skipped). -/
def splitNameValue (nameVal : String) : Option (String × String) :=
  let chars := nameVal.data
  let pre := chars.takeWhile (· ≠ '=')
  if pre.length = chars.length then none
  else some (⟨pre⟩, ⟨chars.drop (pre.length + 1)⟩)

/-- Apply one trimmed attribute segment of a `Set-Cookie` directive to the
cookie under construction (case-insensitive attribute names, values taken
from the original casing). -/
def applyAttr (dateParse : String → Option Rat) (c : Cookie) (attr : String) : Cookie :=
  let lower := jsToLower attr
  if strStartsWith lower "domain=" then { c with domain := strDrop attr 7 }
  else if strStartsWith lower "path=" then { c with path := strDrop attr 5 }
  else if lower = "secure" then { c with secure := true }
  else if lower = "httponly" then { c with httpOnly := true }
  else if strStartsWith lower "expires=" then
    match dateParse (strDrop attr 8) with
    | some ms => { c with expires := some (ms / 1000) }
    | none => c
  else if strStartsWith lower "samesite=" then { c with sameSite := some (strDrop attr 9) }
  else c

/-- Parse one raw `Set-Cookie` directive: split on `;`, trim the segments,
take `name=value` from the first (skipping the directive when it has no
`=`), then fold the attribute segments over the defaults
`domain = hostname`, `path = "/"`. -/
def parseSetCookie (dateParse : String → Option Rat) (hostname raw : String) :
    Option Cookie :=
  match (strSplitChar ';' raw).map jsTrim with
  | [] => none
  | nameVal :: attrs =>
    match splitNameValue nameVal with
    | none => none
    | some (name, value) =>
      some (attrs.foldl (applyAttr dateParse)
        { name := name, value := value, domain := hostname, path := "/" })

/-- The replace-vs-append uniqueness key `(name, domain, path)`. -/
def sameCookieKey (e c : Cookie) : Bool :=
  e.name = c.name && e.domain = c.domain && e.path = c.path

/-- Insert a merged cookie: replace the first existing cookie with the same
`(name, domain, path)` key, else append. -/
def mergeCookieInto (cookies : List Cookie) (c : Cookie) : List Cookie :=
  match cookies.findIdx? (fun e => sameCookieKey e c) with
  | some idx => cookies.set idx c
  | none => cookies ++ [c]

/-- The state update performed by `updateSessionCookies`: each directive is
parsed and merged in the order received; `origins` is untouched. -/
def mergeSetCookies (dateParse : String → Option Rat) (state : SessionState)
    (hostname : String) (raws : List String) : SessionState :=
  { state with
    cookies := raws.foldl (fun acc raw =>
      match parseSetCookie dateParse hostname raw with
      | none => acc
      | some c => mergeCookieInto acc c) state.cookies }

/-! ## Direct fetcher: `directFetch` (src/commands/serve.mjs)

The network is an oracle from outgoing requests to responses (`none` models
a transport-level error, i.e. the `'error'` event rejecting the promise);
`resolveUrl loc base` is the host's `new URL(loc, base).toString()`.  The JS
recursion has no depth bound; the model takes fuel and the theorems hold for
every fuel value. -/

/-- The fixed browser User-Agent sent on every direct fetch. -/
def chromeUA : String :=
  "Mozilla/5.0 (Macintosh; Intel Mac OS X 10_15_7) AppleWebKit/537.36 (KHTML, like Gecko) Chrome/131.0.0.0 Safari/537.36"

/-- An outgoing GET request as `directFetch` issues it: the `Cookie` header
is present exactly when the cookie header string is truthy (nonempty). -/
structure OutRequest where
  url : String
  userAgent : String
  cookie : Option String
deriving Repr, DecidableEq

def mkRequest (url cookieHeader : String) : OutRequest :=
  { url := url, userAgent := chromeUA,
    cookie := if cookieHeader ≠ "" then some cookieHeader else none }

/-- A raw upstream response as seen by `directFetch`'s redirect logic. -/
structure NetResponse where
  statusCode : Nat
  location : Option String
deriving Repr, DecidableEq

/-- Truthiness of `res.headers.location` (absent or empty string is falsy). -/
def locTruthy (loc : Option String) : Bool :=
  match loc with
  | some l => l ≠ ""
  | none => false

/-- Model of `directFetch(url, cookieHeader)`: issues the request; on a 3xx response
with a truthy `Location`, destroys the response and recurses on the resolved
redirect URL with the same cookie header.  Returns the trace of issued
requests and the terminal response (`none` = transport error or fuel
exhausted before a request could be issued). -/
def directFetch (net : OutRequest → Option NetResponse)
    (resolveUrl : String → String → String) :
    Nat → String → String → List OutRequest × Option NetResponse
  | 0, _, _ => ([], none)
  | fuel + 1, url, cookieHeader =>
    let req := mkRequest url cookieHeader
    match net req with
    | none => ([req], none)
    | some res =>
      if 300 ≤ res.statusCode ∧ res.statusCode < 400 ∧ locTruthy res.location then
        let redirectUrl := resolveUrl (res.location.getD "") url
        let rest := directFetch net resolveUrl fuel redirectUrl cookieHeader
        (req :: rest.1, rest.2)
      else ([req], some res)

/-! ## Request router (src/commands/serve.mjs, the `http.createServer` handler)

The handler's effects are modelled by an oracle record `ServeEnv` (host URL
parsing, `Date.parse`, the outcome of the whole `directFetch` call, the
context cache and Playwright operations) and the run is reported as the
ordered list of observable events (response writes, body delivery, session
load / persistence attempts, page close) together with the final file
system.  Note the handler never reads `req.method`. -/

structure Request where
  method : String
  pathname : String
  session : Option String
  url : Option String
deriving Repr, DecidableEq

/-- Truthiness of a missing query parameter: `searchParams.get` returns
`null` when absent, and both `null` and `""` fail the `!sessionName ||
!targetUrl` guard. -/
def blank : Option String → Bool
  | none => true
  | some s => s = ""

/-- The upstream response fields the handler reads (`headers['content-type']`,
`headers['content-disposition']`, `headers['set-cookie']`, `statusCode`);
remaining headers are forwarded untouched and carry no decision weight. -/
structure UpstreamResponse where
  statusCode : Nat
  contentType : Option String
  contentDisposition : Option String
  setCookie : Option (List String)
deriving Repr, DecidableEq

/-- Response headers written by the handler (restricted to the fields the
model tracks). -/
structure HeadersOut where
  contentType : Option String
  contentDisposition : Option String
  setCookie : Option (List String)
deriving Repr, DecidableEq

def jsonHeaders : HeadersOut :=
  { contentType := some "application/json", contentDisposition := none, setCookie := none }

inductive ServeError where
  | sessionLoad (e : LoadError)
  | fetchTransport
  | contextCreate
  | navigation
  | persistContext
deriving Repr, DecidableEq

/-- Observable events of one handler run, in order. -/
inductive Ev where
  | loadAttempt (path : String)
  | fetch (url : String) (cookieHeader : String)
  | writeHead (status : Nat) (headers : HeadersOut)
  | pipeBody
  | endBody (body : String)
  | endErr (e : ServeError)
  | saveAttempt (path : String)
  | persistContextAttempt (path : String)
  | pageClose
deriving Repr, DecidableEq

def notFoundBody : String :=
  "\x7b\"error\":\"Not found. Use /v1?session=<name>&url=<encoded_url>\"\x7d"

def missingParamsBody : String :=
  "\x7b\"error\":\"Missing required query parameters: session, url\"\x7d"

/-- Substring scan for `strContains`. -/
def listContains (pat : List Char) : List Char → Bool
  | [] => pat.isEmpty
  | c :: rest => pat.isPrefixOf (c :: rest) || listContains pat rest

/-- JS `String.prototype.includes`. -/
def strContains (s pat : String) : Bool :=
  listContains pat.data s.data

/-- Model of `filenameFromUrl(url)`: last segment of the URL's pathname, or
`"download"` when it is empty (the URL has already been parsed successfully
when this runs, so the `catch` branch of the source is unreachable). -/
def filenameFromUrl (u : URL) : String :=
  let base := (strSplitChar '/' u.pathname).getLastD ""
  if base ≠ "" then base else "download"

/-- Headers forwarded on the DirectStream path: a copy of the upstream
headers, with a `Content-Disposition` synthesized from the target URL when
the upstream declares none (falsy) and the content type is not textual. -/
def streamHeaders (up : UpstreamResponse) (target : URL) : HeadersOut :=
  let contentType := up.contentType.getD ""
  if up.contentDisposition.getD "" = "" && !strStartsWith contentType "text/" then
    { contentType := up.contentType,
      contentDisposition :=
        some ("attachment; filename=\"" ++ filenameFromUrl target ++ "\""),
      setCookie := up.setCookie }
  else
    { contentType := up.contentType,
      contentDisposition := up.contentDisposition,
      setCookie := up.setCookie }

/-- Oracles for one handler run. -/
structure ServeEnv where
  sessionsDir : String
  now : Rat
  parseUrl : String → URL
  dateParse : String → Option Rat
  fetchResult : String → String → Option UpstreamResponse
  cacheHit : Bool
  createContextOk : Bool
  gotoResult : Option String
  contextState : SessionState
  persistContextOk : Bool
  saveOk : Bool

/-- Model of `updateSessionCookies(state, sessionPath, upstreamRes, targetUrl)`:
returns immediately when the response carries no `Set-Cookie` header (or an
empty list of them); otherwise merges the directives and attempts
`saveSession`.  A failing save (`saveOk = false`) leaves the file system
unchanged and throws, which the handler's catch swallows after headers were
sent. -/
def updateSessionCookies (env : ServeEnv) (state : SessionState)
    (sessionPath : String) (up : UpstreamResponse) (hostname : String)
    (fs : FileSystem) : List Ev × FileSystem :=
  match up.setCookie with
  | none => ([], fs)
  | some [] => ([], fs)
  | some raws =>
    let newState := mergeSetCookies env.dateParse state hostname raws
    if env.saveOk then
      ([.saveAttempt sessionPath], saveSession fs sessionPath newState)
    else
      ([.saveAttempt sessionPath], fs)

/-- Rendered-response headers: `contentType || 'text/html; charset=utf-8'`. -/
def htmlHeaders (contentType : String) : HeadersOut :=
  { contentType := some (if contentType ≠ "" then contentType else "text/html; charset=utf-8"),
    contentDisposition := none, setCookie := none }

/-- One run of the per-request handler.  Mirrors the source's control flow:
path check (404), parameter check (400), session load, direct fetch, branch
on `text/html` content type into the DirectStream path (stream, then merge
cookies best-effort) or the Render path (`getContext`, `goto`, persist
context state, respond; the page is closed in a `finally`).  Every uncaught
failure before headers are sent becomes a 500. -/
def handle (env : ServeEnv) (fs : FileSystem) (req : Request) :
    List Ev × FileSystem :=
  if req.pathname ≠ "/v1" then
    ([.writeHead 404 jsonHeaders, .endBody notFoundBody], fs)
  else if blank req.session || blank req.url then
    ([.writeHead 400 jsonHeaders, .endBody missingParamsBody], fs)
  else
    let sessionName := req.session.getD ""
    let targetUrl := req.url.getD ""
    let sessionPath := resolveSessionPath sessionName env.sessionsDir
    match loadSession fs sessionPath with
    | .error e =>
      ([.loadAttempt sessionPath, .writeHead 500 jsonHeaders,
        .endErr (.sessionLoad e)], fs)
    | .ok state =>
      let target := env.parseUrl targetUrl
      let cookieHeader := buildCookieHeader env.now state target
      match env.fetchResult targetUrl cookieHeader with
      | none =>
        ([.loadAttempt sessionPath, .fetch targetUrl cookieHeader,
          .writeHead 500 jsonHeaders, .endErr .fetchTransport], fs)
      | some up =>
        let contentType := up.contentType.getD ""
        if !strContains contentType "text/html" then
          let pre := [Ev.loadAttempt sessionPath, .fetch targetUrl cookieHeader,
                      .writeHead up.statusCode (streamHeaders up target), .pipeBody]
          let merged := updateSessionCookies env state sessionPath up target.hostname fs
          (pre ++ merged.1, merged.2)
        else
          let pre := [Ev.loadAttempt sessionPath, .fetch targetUrl cookieHeader]
          let ctx : List Ev × Except ServeError Unit :=
            if env.cacheHit then ([], .ok ())
            else
              match loadSession fs sessionPath with
              | .error e => ([.loadAttempt sessionPath], .error (.sessionLoad e))
              | .ok _ =>
                ([.loadAttempt sessionPath],
                 if env.createContextOk then .ok () else .error .contextCreate)
          match ctx with
          | (evs, .error e) =>
            (pre ++ evs ++ [.writeHead 500 jsonHeaders, .endErr e], fs)
          | (evs, .ok _) =>
            match env.gotoResult with
            | none =>
              (pre ++ evs ++ [.pageClose, .writeHead 500 jsonHeaders,
                .endErr .navigation], fs)
            | some body =>
              if env.persistContextOk then
                (pre ++ evs ++ [.persistContextAttempt sessionPath,
                  .writeHead 200 (htmlHeaders contentType), .endBody body, .pageClose],
                 saveSession fs sessionPath env.contextState)
              else
                (pre ++ evs ++ [.persistContextAttempt sessionPath, .pageClose,
                  .writeHead 500 jsonHeaders, .endErr .persistContext], fs)

/-! ## Shared lemmas -/

/-- Appending a suffix that does not start with `/` does not change
absoluteness; in particular the `.json` extension append preserves it. -/
theorem isAbsolute_append_json (p : String) :
    isAbsolute (p ++ ".json") = isAbsolute p := by
  unfold isAbsolute
  rw [String.data_append]
  cases p.data with
  | nil => decide
  | cons c cs => rfl

/-! ## Claim C4: `resolveSessionPath` -/

/-- C4 counterexample: the claim asserts that an absolute path is returned
unchanged and that `.json` is appended exactly when the input has no file
extension; on the absolute, extension-free input `/var/data/mysession` the
code appends `.json`, so the path is not returned unchanged. -/
theorem c4_resolveSessionPath_counterexample :
    resolveSessionPath "/var/data/mysession" "/sessions" = "/var/data/mysession.json" ∧
    resolveSessionPath "/var/data/mysession" "/sessions" ≠ "/var/data/mysession" := by
  decide

/-- C4 (amended): `.json` is appended exactly when the input has no file
extension; after that, an absolute input is kept in place (not joined under
the sessions directory) and a relative input is joined under it.  An
absolute input is returned completely unchanged only when it already has an
extension. -/
theorem c4_resolveSessionPath_amended (p d : String) :
    (isAbsolute p = true → extname p ≠ "" → resolveSessionPath p d = p) ∧
    (isAbsolute p = true → extname p = "" → resolveSessionPath p d = p ++ ".json") ∧
    (isAbsolute p = false → extname p ≠ "" → resolveSessionPath p d = pathJoin d p) ∧
    (isAbsolute p = false → extname p = "" →
      resolveSessionPath p d = pathJoin d (p ++ ".json")) := by
  refine ⟨?_, ?_, ?_, ?_⟩ <;> intro habs hext
  · simp [resolveSessionPath, hext, habs]
  · simp [resolveSessionPath, hext, isAbsolute_append_json, habs]
  · simp [resolveSessionPath, hext, habs]
  · simp [resolveSessionPath, hext, isAbsolute_append_json, habs]

/-- C4 witness. -/
theorem c4_resolveSessionPath_witness :
    resolveSessionPath "/var/data/s.json" "/sessions" = "/var/data/s.json" ∧
    resolveSessionPath "name" "/sessions" = pathJoin "/sessions" "name.json" := by
  refine ⟨(c4_resolveSessionPath_amended "/var/data/s.json" "/sessions").1 (by decide) (by decide),
    (c4_resolveSessionPath_amended "name" "/sessions").2.2.2 (by decide) (by decide)⟩

/-! ## Claim C1: direction of the cookie-domain suffix test -/

/-- C1 counterexample: the claim requires, for an included cookie, that the
`.`-prefixed target hostname equal or be a suffix of the cookie's
(normalized) domain.  The cookie with domain `.example.com` is included by
`buildCookieHeader` for the target hostname `sub.example.com`, yet
`.sub.example.com` is neither equal to nor a suffix of `.example.com`. -/
theorem c1_domain_direction_counterexample :
    buildCookieHeader 0
      ⟨[{ name := "sid", value := "1", domain := ".example.com", path := "/" }], .arr []⟩
      ⟨"https:", "sub.example.com", "/"⟩ = "sid=1" ∧
    cookieMatches 0 ⟨"https:", "sub.example.com", "/"⟩
      { name := "sid", value := "1", domain := ".example.com", path := "/" } = true ∧
    (".sub.example.com" : String) ≠ ".example.com" ∧
    strEndsWith ".example.com" ".sub.example.com" = false := by
  exact ⟨by decide, by decide, by decide, by decide⟩

/-- C1 (amended): a cookie is included only if, after normalizing the
cookie's domain by prefixing `.` when absent, the cookie's domain equals or
is a suffix of the `.`-prefixed target hostname (the converse direction of
the claim's wording — standard leading-dot domain matching). -/
theorem c1_domain_direction_amended (now : Rat) (u : URL) (state : SessionState)
    (c : Cookie) (h : c ∈ state.cookies.filter (cookieMatches now u)) :
    ("." ++ u.hostname) = normDomain c ∨
      strEndsWith ("." ++ u.hostname) (normDomain c) = true := by
  rw [List.mem_filter] at h
  have hm := h.2
  unfold cookieMatches domainCheck at hm
  simp only [Bool.and_eq_true, Bool.or_eq_true, decide_eq_true_eq] at hm
  exact hm.1.1.1.elim Or.inr Or.inl

/-- C1 witness. -/
theorem c1_domain_direction_witness :
    (".sub.example.com" : String) = normDomain
        { name := "sid", value := "1", domain := ".example.com", path := "/" } ∨
      strEndsWith ".sub.example.com" (normDomain
        { name := "sid", value := "1", domain := ".example.com", path := "/" }) = true :=
  c1_domain_direction_amended 0 ⟨"https:", "sub.example.com", "/"⟩
    ⟨[{ name := "sid", value := "1", domain := ".example.com", path := "/" }], .arr []⟩
    { name := "sid", value := "1", domain := ".example.com", path := "/" }
    (by decide)

/-- Header built from a single matching cookie. -/
theorem buildCookieHeader_singleton (now : Rat) (c : Cookie) (o : Json) (u : URL)
    (h : cookieMatches now u c = true) :
    buildCookieHeader now ⟨[c], o⟩ u = c.name ++ "=" ++ c.value := by
  simp only [buildCookieHeader, List.filter, h, List.map]
  rfl

/-- Header built from a single non-matching cookie. -/
theorem buildCookieHeader_singleton_none (now : Rat) (c : Cookie) (o : Json) (u : URL)
    (h : cookieMatches now u c = false) :
    buildCookieHeader now ⟨[c], o⟩ u = "" := by
  simp only [buildCookieHeader, List.filter, h]
  rfl

/-! ## Claim C6: domain-suffix matching on concrete hostnames -/

/-- C6: a cookie with domain `.example.com` that passes the path, secure and
expiry checks is included by `buildCookieHeader` for targets on
`sub.example.com` and `example.com`, and excluded for `notexample.com`. -/
theorem c6_domain_suffix_cases (now : Rat) (c : Cookie) (o : Json)
    (hdom : c.domain = ".example.com")
    (hpath : pathCheck "/" c = true)
    (hsec : secureCheck "https:" c = true)
    (hexp : expiryCheck now c = true) :
    cookieMatches now ⟨"https:", "sub.example.com", "/"⟩ c = true ∧
    cookieMatches now ⟨"https:", "example.com", "/"⟩ c = true ∧
    cookieMatches now ⟨"https:", "notexample.com", "/"⟩ c = false ∧
    buildCookieHeader now ⟨[c], o⟩ ⟨"https:", "sub.example.com", "/"⟩ =
      c.name ++ "=" ++ c.value ∧
    buildCookieHeader now ⟨[c], o⟩ ⟨"https:", "example.com", "/"⟩ =
      c.name ++ "=" ++ c.value ∧
    buildCookieHeader now ⟨[c], o⟩ ⟨"https:", "notexample.com", "/"⟩ = "" := by
  have hnorm : normDomain c = ".example.com" := by
    rw [normDomain, hdom]; decide
  have h1 : cookieMatches now ⟨"https:", "sub.example.com", "/"⟩ c = true := by
    simp [cookieMatches, domainCheck, hnorm, hpath, hsec, hexp,
      show strEndsWith ".sub.example.com" ".example.com" = true by decide]
  have h2 : cookieMatches now ⟨"https:", "example.com", "/"⟩ c = true := by
    simp [cookieMatches, domainCheck, hnorm, hpath, hsec, hexp,
      show strEndsWith ".example.com" ".example.com" = true by decide]
  have h3 : cookieMatches now ⟨"https:", "notexample.com", "/"⟩ c = false := by
    simp [cookieMatches, domainCheck, hnorm,
      show strEndsWith ".notexample.com" ".example.com" = false by decide,
      show (".notexample.com" : String) ≠ ".example.com" by decide]
  exact ⟨h1, h2, h3, buildCookieHeader_singleton now c o _ h1,
    buildCookieHeader_singleton now c o _ h2, buildCookieHeader_singleton_none now c o _ h3⟩

/-- C6 witness. -/
theorem c6_domain_suffix_cases_witness :
    cookieMatches 0 ⟨"https:", "sub.example.com", "/"⟩
      { name := "sid", value := "abc", domain := ".example.com", path := "/" } = true ∧
    cookieMatches 0 ⟨"https:", "example.com", "/"⟩
      { name := "sid", value := "abc", domain := ".example.com", path := "/" } = true ∧
    cookieMatches 0 ⟨"https:", "notexample.com", "/"⟩
      { name := "sid", value := "abc", domain := ".example.com", path := "/" } = false ∧
    buildCookieHeader 0 ⟨[{ name := "sid", value := "abc", domain := ".example.com", path := "/" }], .arr []⟩
      ⟨"https:", "sub.example.com", "/"⟩ = "sid" ++ "=" ++ "abc" ∧
    buildCookieHeader 0 ⟨[{ name := "sid", value := "abc", domain := ".example.com", path := "/" }], .arr []⟩
      ⟨"https:", "example.com", "/"⟩ = "sid" ++ "=" ++ "abc" ∧
    buildCookieHeader 0 ⟨[{ name := "sid", value := "abc", domain := ".example.com", path := "/" }], .arr []⟩
      ⟨"https:", "notexample.com", "/"⟩ = "" :=
  c6_domain_suffix_cases 0
    { name := "sid", value := "abc", domain := ".example.com", path := "/" }
    (.arr []) (by decide) (by decide) (by decide) (by decide)

/-! ## Claim C8: round-trip persistence -/

/-- Decoding inverts encoding on a single cookie. -/
theorem decodeCookie_encodeCookie (c : Cookie) :
    decodeCookie (encodeCookie c) = some c := by
  obtain ⟨name, value, domain, path, secure, httpOnly, expires, sameSite⟩ := c
  cases expires <;> cases sameSite <;>
    simp [encodeCookie, decodeCookie, jLookup, List.find?]

/-- Decoding inverts encoding on a cookie list. -/
theorem decodeCookies_map_encodeCookie (l : List Cookie) :
    decodeCookies (l.map encodeCookie) = some l := by
  induction l with
  | nil => rfl
  | cons c rest ih => simp [decodeCookies, decodeCookie_encodeCookie, ih]

/-- Decoding inverts encoding on a whole session record. -/
theorem decodeState_encodeState (s : SessionState) :
    decodeState (encodeState s) = some s := by
  obtain ⟨cookies, origins⟩ := s
  simp [encodeState, decodeState, jLookup, List.find?, decodeCookies_map_encodeCookie]

/-- C8: `saveSession` followed by `loadSession` on the same path yields the
original record — cookie sequence, order and every attribute (including the
optional `expires`/`sameSite`) and the opaque `origins` snapshot are
preserved by the serialized JSON form. -/
theorem c8_save_load_roundtrip (fs : FileSystem) (p : String) (s : SessionState) :
    loadSession (saveSession fs p s) p = .ok s := by
  simp [loadSession, saveSession, fsRead, List.find?, decodeState_encodeState]

/-! ## Claim C9: redirect hops re-send the original cookie header -/

/-- C9: on every hop of a `directFetch` redirect chain, the outgoing request
carries exactly the `Cookie` header computed for the original target URL
(present iff the header string is nonempty) and the fixed User-Agent,
regardless of the redirect destination's hostname or scheme. -/
theorem c9_redirect_cookie_constant (net : OutRequest → Option NetResponse)
    (resolveUrl : String → String → String) (fuel : Nat)
    (url cookieHeader : String) (r : OutRequest)
    (h : r ∈ (directFetch net resolveUrl fuel url cookieHeader).1) :
    r.cookie = (if cookieHeader ≠ "" then some cookieHeader else none) ∧
      r.userAgent = chromeUA := by
  induction fuel generalizing url with
  | zero => simp [directFetch] at h
  | succ n ih =>
    rw [directFetch] at h
    cases hnet : net (mkRequest url cookieHeader) with
    | none =>
      rw [hnet] at h
      simp only [List.mem_singleton] at h
      subst h
      exact ⟨rfl, rfl⟩
    | some res =>
      rw [hnet] at h
      simp only [] at h
      by_cases hred : 300 ≤ res.statusCode ∧ res.statusCode < 400 ∧
          locTruthy res.location = true
      · rw [if_pos hred] at h
        rcases List.mem_cons.mp h with heq | hmem
        · subst heq; exact ⟨rfl, rfl⟩
        · exact ih _ hmem
      · rw [if_neg hred] at h
        simp only [List.mem_singleton] at h
        subst h
        exact ⟨rfl, rfl⟩

/-- Concrete one-redirect network used by the C9 witness. -/
def c9net : OutRequest → Option NetResponse := fun r =>
  if r.url = "https://a.test/start" then some ⟨302, some "http://b.test/next"⟩
  else some ⟨200, none⟩

/-- Concrete URL resolver used by the C9 witness. -/
def c9resolve : String → String → String := fun loc _ => loc

/-- C9 witness: the second hop of the concrete redirect chain carries the
cookie header built for the first URL. -/
theorem c9_redirect_cookie_constant_witness :
    (mkRequest "http://b.test/next" "sid=1").cookie =
      (if ("sid=1" : String) ≠ "" then some "sid=1" else none) ∧
    (mkRequest "http://b.test/next" "sid=1").userAgent = chromeUA :=
  c9_redirect_cookie_constant c9net c9resolve 3 "https://a.test/start" "sid=1"
    (mkRequest "http://b.test/next" "sid=1") (by decide)

/-! ## Claim C5: merge semantics of `updateSessionCookies` -/

/-- An attribute segment that is not a `domain=` attribute leaves the
cookie's domain unchanged. -/
theorem applyAttr_domain (dp : String → Option Rat) (c : Cookie) (attr : String)
    (h : strStartsWith (jsToLower attr) "domain=" = false) :
    (applyAttr dp c attr).domain = c.domain := by
  unfold applyAttr
  simp only [h, Bool.false_eq_true, if_false]
  split
  · rfl
  · split
    · rfl
    · split
      · rfl
      · split
        · split <;> rfl
        · split <;> rfl

/-- An attribute segment that is not a `path=` attribute leaves the cookie's
path unchanged. -/
theorem applyAttr_path (dp : String → Option Rat) (c : Cookie) (attr : String)
    (h : strStartsWith (jsToLower attr) "path=" = false) :
    (applyAttr dp c attr).path = c.path := by
  unfold applyAttr
  simp only [h, Bool.false_eq_true, if_false]
  split
  · rfl
  · split
    · rfl
    · split
      · rfl
      · split
        · split <;> rfl
        · split <;> rfl

/-- Folding attribute segments without a `domain=` attribute preserves the
domain. -/
theorem foldl_applyAttr_domain (dp : String → Option Rat) (attrs : List String)
    (c : Cookie) (h : ∀ a ∈ attrs, strStartsWith (jsToLower a) "domain=" = false) :
    (attrs.foldl (applyAttr dp) c).domain = c.domain := by
  induction attrs generalizing c with
  | nil => rfl
  | cons a rest ih =>
    rw [List.foldl_cons, ih _ (fun x hx => h x (List.mem_cons_of_mem a hx)),
      applyAttr_domain dp c a (h a (List.mem_cons_self a rest))]

/-- Folding attribute segments without a `path=` attribute preserves the
path. -/
theorem foldl_applyAttr_path (dp : String → Option Rat) (attrs : List String)
    (c : Cookie) (h : ∀ a ∈ attrs, strStartsWith (jsToLower a) "path=" = false) :
    (attrs.foldl (applyAttr dp) c).path = c.path := by
  induction attrs generalizing c with
  | nil => rfl
  | cons a rest ih =>
    rw [List.foldl_cons, ih _ (fun x hx => h x (List.mem_cons_of_mem a hx)),
      applyAttr_path dp c a (h a (List.mem_cons_self a rest))]

/-- Defaults of a parsed directive: when the directive carries no `domain=`
(resp. `path=`) attribute, the parsed cookie keeps the target hostname
(resp. `/`). -/
theorem parseSetCookie_defaults (dp : String → Option Rat) (host raw : String)
    (c : Cookie) (hp : parseSetCookie dp host raw = some c) :
    ((∀ a ∈ ((strSplitChar ';' raw).map jsTrim).tail,
        strStartsWith (jsToLower a) "domain=" = false) → c.domain = host) ∧
    ((∀ a ∈ ((strSplitChar ';' raw).map jsTrim).tail,
        strStartsWith (jsToLower a) "path=" = false) → c.path = "/") := by
  unfold parseSetCookie at hp
  cases hsplit : (strSplitChar ';' raw).map jsTrim with
  | nil => rw [hsplit] at hp; cases hp
  | cons nameVal attrs =>
    rw [hsplit] at hp
    simp only [] at hp
    cases hnv : splitNameValue nameVal with
    | none => rw [hnv] at hp; cases hp
    | some nv =>
      obtain ⟨n, v⟩ := nv
      rw [hnv] at hp
      simp only [Option.some.injEq] at hp
      subst hp
      exact ⟨fun h => foldl_applyAttr_domain dp attrs _ (by simpa using h),
        fun h => foldl_applyAttr_path dp attrs _ (by simpa using h)⟩

/-- A directive whose key matches no existing cookie is appended. -/
theorem mergeCookieInto_append (cookies : List Cookie) (c : Cookie)
    (h : ∀ e ∈ cookies, sameCookieKey e c = false) :
    mergeCookieInto cookies c = cookies ++ [c] := by
  unfold mergeCookieInto
  rw [List.findIdx?_eq_none_iff.mpr h]

/-- A directive whose key matches an existing cookie replaces it in place at
the first matching position. -/
theorem mergeCookieInto_replace (cookies : List Cookie) (c : Cookie) (i : Nat)
    (hi : i < cookies.length)
    (hk : sameCookieKey (cookies.get ⟨i, hi⟩) c = true)
    (hfirst : ∀ j (hj : j < cookies.length), j < i →
      sameCookieKey (cookies.get ⟨j, hj⟩) c = false) :
    mergeCookieInto cookies c = cookies.set i c := by
  unfold mergeCookieInto
  suffices hidx : List.findIdx? (fun e => sameCookieKey e c) cookies = some i by
    rw [hidx]
  induction cookies generalizing i with
  | nil => cases hi
  | cons a rest ih =>
    rw [List.findIdx?_cons]
    cases i with
    | zero =>
      rw [if_pos]
      exact hk
    | succ n =>
      have ha : sameCookieKey a c = false :=
        hfirst 0 (Nat.succ_pos _) (Nat.succ_pos _)
      rw [if_neg (by simp [ha]), List.findIdx?_succ,
        ih n (Nat.lt_of_succ_lt_succ hi) hk
          (fun j hj hji => hfirst (j + 1) (Nat.succ_lt_succ hj) (Nat.succ_lt_succ hji))]
      rfl

/-- C5: batches of `Set-Cookie` directives are merged in order; a parsed
directive defaults its domain to the target hostname and its path to `/`
when those attributes are absent; the merged cookie replaces the first
existing cookie with the same `(name, domain, path)` key and is appended
otherwise; for two same-key directives the later one wins. -/
theorem c5_merge_set_cookie_semantics (dp : String → Option Rat) :
    (∀ state host raws₁ raws₂,
      mergeSetCookies dp state host (raws₁ ++ raws₂) =
        mergeSetCookies dp (mergeSetCookies dp state host raws₁) host raws₂) ∧
    (∀ host raw c, parseSetCookie dp host raw = some c →
      ((∀ a ∈ ((strSplitChar ';' raw).map jsTrim).tail,
          strStartsWith (jsToLower a) "domain=" = false) → c.domain = host) ∧
      ((∀ a ∈ ((strSplitChar ';' raw).map jsTrim).tail,
          strStartsWith (jsToLower a) "path=" = false) → c.path = "/")) ∧
    (∀ cookies (c : Cookie), (∀ e ∈ cookies, sameCookieKey e c = false) →
      mergeCookieInto cookies c = cookies ++ [c]) ∧
    (∀ cookies (c : Cookie) (i : Nat) (hi : i < cookies.length),
      sameCookieKey (cookies.get ⟨i, hi⟩) c = true →
      (∀ j (hj : j < cookies.length), j < i →
        sameCookieKey (cookies.get ⟨j, hj⟩) c = false) →
      mergeCookieInto cookies c = cookies.set i c) ∧
    (∀ cookies (c₁ c₂ : Cookie), sameCookieKey c₁ c₂ = true →
      (∀ e ∈ cookies, sameCookieKey e c₂ = false) →
      (∀ e ∈ cookies, sameCookieKey e c₁ = false) →
      mergeCookieInto (mergeCookieInto cookies c₁) c₂ = cookies ++ [c₂]) := by
  refine ⟨?_, ?_, mergeCookieInto_append, mergeCookieInto_replace, ?_⟩
  · intro state host raws₁ raws₂
    simp [mergeSetCookies, List.foldl_append]
  · intro host raw c hp
    exact parseSetCookie_defaults dp host raw c hp
  · intro cookies c₁ c₂ hk h₂ h₁
    rw [mergeCookieInto_append cookies c₁ h₁]
    rw [mergeCookieInto_replace (cookies ++ [c₁]) c₂ cookies.length
      (by simp) (by simp [hk]) ?_]
    · rw [List.set_append]
      simp
    · intro j hj hji
      have hjlt : j < cookies.length := by
        simpa using hji
      have : (cookies ++ [c₁]).get ⟨j, hj⟩ = cookies.get ⟨j, hjlt⟩ := by
        simp [List.getElem_append_left hjlt]
      rw [this]
      exact h₂ _ (List.get_mem cookies j hjlt)

/-- C5 witness. -/
theorem c5_merge_set_cookie_semantics_witness :
    (mergeSetCookies (fun _ => none) ⟨[], .arr []⟩ "h.test" (["a=1"] ++ ["a=2"]) =
      mergeSetCookies (fun _ => none)
        (mergeSetCookies (fun _ => none) ⟨[], .arr []⟩ "h.test" ["a=1"]) "h.test" ["a=2"]) ∧
    ({ name := "sid", value := "abc", domain := "h.test", path := "/",
       secure := true } : Cookie).domain = "h.test" ∧
    (mergeCookieInto [{ name := "a", value := "1", domain := "d", path := "/" }]
        { name := "b", value := "2", domain := "d", path := "/" } =
      [{ name := "a", value := "1", domain := "d", path := "/" }] ++
        [{ name := "b", value := "2", domain := "d", path := "/" }]) ∧
    (mergeCookieInto [{ name := "a", value := "1", domain := "d", path := "/" }]
        { name := "a", value := "2", domain := "d", path := "/" } =
      [{ name := "a", value := "1", domain := "d", path := "/" }].set 0
        { name := "a", value := "2", domain := "d", path := "/" }) ∧
    (mergeCookieInto (mergeCookieInto []
        { name := "a", value := "1", domain := "d", path := "/" })
        { name := "a", value := "2", domain := "d", path := "/" } =
      [] ++ [{ name := "a", value := "2", domain := "d", path := "/" }]) := by
  have h := c5_merge_set_cookie_semantics (fun _ => none)
  refine ⟨h.1 ⟨[], .arr []⟩ "h.test" ["a=1"] ["a=2"], ?_, ?_, ?_, ?_⟩
  · exact (h.2.1 "h.test" "sid=abc; Secure"
      { name := "sid", value := "abc", domain := "h.test", path := "/", secure := true }
      (by decide)).1 (by decide)
  · exact h.2.2.1 _ _ (by decide)
  · exact h.2.2.2.1 _ _ 0 (by decide) (by decide)
      (fun j hj hji => absurd hji (by omega))
  · exact h.2.2.2.2 _ _ _ (by decide) (by simp) (by simp)

/-! ## Shared concrete fixtures for handler-level claims -/

/-- A non-HTML upstream response with no `Set-Cookie`. -/
def samplePdf : UpstreamResponse :=
  { statusCode := 200, contentType := some "application/pdf",
    contentDisposition := none, setCookie := none }

/-- A baseline oracle environment for concrete handler runs. -/
def sampleEnv : ServeEnv :=
  { sessionsDir := "/s", now := 0,
    parseUrl := fun _ => ⟨"https:", "example.com", "/doc.pdf"⟩,
    dateParse := fun _ => none,
    fetchResult := fun _ _ => some samplePdf,
    cacheHit := true, createContextOk := true,
    gotoResult := some "<html>rendered</html>",
    contextState := ⟨[], .arr []⟩,
    persistContextOk := true, saveOk := true }

/-- A file system holding an empty session at `/s/foo.json`. -/
def sampleFs : FileSystem := [("/s/foo.json", encodeState ⟨[], .arr []⟩)]

/-- A well-formed request for session `foo`. -/
def sampleReq : Request :=
  { method := "GET", pathname := "/v1", session := some "foo",
    url := some "https://example.com/doc.pdf" }

/-- Recognizer for fetch events. -/
def isFetchEv : Ev → Bool
  | .fetch _ _ => true
  | _ => false

/-- Recognizer for persistence-attempt events (cookie-merge save or
context-state persist). -/
def isPersistEv : Ev → Bool
  | .saveAttempt _ => true
  | .persistContextAttempt _ => true
  | _ => false

/-! ## Claim C2: behavior when the session file is absent -/

/-- C2 counterexample: with no session file on the direct-fetch
configuration, the request fails with a 500 before any fetch is attempted —
no unauthenticated fetch with an empty cookie header happens. -/
theorem c2_absent_session_counterexample :
    (handle sampleEnv [] sampleReq).1 =
      [.loadAttempt "/s/foo.json", .writeHead 500 jsonHeaders,
       .endErr (.sessionLoad .notFound)] ∧
    (handle sampleEnv [] sampleReq).1.all (fun e => !isFetchEv e) = true := by
  exact ⟨by decide, by decide⟩

/-- C2 (amended): a request whose session file fails to load (absent or
unparseable) fails with 500 before the fetch is attempted, on every path;
there is no graceful degradation to an unauthenticated fetch. -/
theorem c2_absent_session_amended (env : ServeEnv) (fs : FileSystem)
    (req : Request) (e : LoadError)
    (hpath : req.pathname = "/v1")
    (hs : blank req.session = false) (hu : blank req.url = false)
    (hload : loadSession fs (resolveSessionPath (req.session.getD "") env.sessionsDir)
      = .error e) :
    handle env fs req =
      ([.loadAttempt (resolveSessionPath (req.session.getD "") env.sessionsDir),
        .writeHead 500 jsonHeaders, .endErr (.sessionLoad e)], fs) := by
  unfold handle
  rw [if_neg (by simp [hpath]), if_neg (by simp [hs, hu])]
  simp only [hload]

/-- C2 witness. -/
theorem c2_absent_session_witness :
    handle sampleEnv [] sampleReq =
      ([.loadAttempt (resolveSessionPath ((sampleReq.session).getD "") sampleEnv.sessionsDir),
        .writeHead 500 jsonHeaders, .endErr (.sessionLoad .notFound)], []) :=
  c2_absent_session_amended sampleEnv [] sampleReq .notFound rfl (by decide) (by decide) rfl

/-! ## Claim C7: request parsing (path, parameters, method) -/

/-- C7 counterexample: the handler never checks the HTTP method, so a
`POST /v1` request with both parameters is not rejected — it is processed
exactly like the corresponding `GET` request, down to streaming the
upstream response. -/
theorem c7_method_counterexample :
    (handle sampleEnv sampleFs { sampleReq with method := "POST" }).1 =
      [.loadAttempt "/s/foo.json",
       .fetch "https://example.com/doc.pdf" "",
       .writeHead 200 { contentType := some "application/pdf",
                        contentDisposition := some "attachment; filename=\"doc.pdf\"",
                        setCookie := none },
       .pipeBody] ∧
    handle sampleEnv sampleFs { sampleReq with method := "POST" } =
      handle sampleEnv sampleFs sampleReq := by
  exact ⟨by decide, rfl⟩

/-- C7 (amended): the router dispatches on the path only and never inspects
the HTTP method; any request whose path is not `/v1` receives a 404 with a
JSON error body, and a `/v1` request missing (or carrying an empty) `session`
or `url` parameter receives a 400 with the exact documented body. -/
theorem c7_routing_amended (env : ServeEnv) (fs : FileSystem) (req : Request) :
    (∀ m₁ m₂, handle env fs { req with method := m₁ } =
      handle env fs { req with method := m₂ }) ∧
    (req.pathname ≠ "/v1" →
      handle env fs req = ([.writeHead 404 jsonHeaders, .endBody notFoundBody], fs)) ∧
    (req.pathname = "/v1" → (blank req.session || blank req.url) = true →
      handle env fs req = ([.writeHead 400 jsonHeaders, .endBody missingParamsBody], fs)) := by
  refine ⟨fun m₁ m₂ => rfl, ?_, ?_⟩
  · intro h
    unfold handle
    rw [if_pos h]
  · intro h hb
    unfold handle
    rw [if_neg (by simp [h]), if_pos hb]

/-- C7 witness. -/
theorem c7_routing_witness :
    handle sampleEnv sampleFs { sampleReq with pathname := "/other" } =
      ([.writeHead 404 jsonHeaders, .endBody notFoundBody], sampleFs) ∧
    handle sampleEnv sampleFs { sampleReq with url := none } =
      ([.writeHead 400 jsonHeaders, .endBody missingParamsBody], sampleFs) :=
  ⟨(c7_routing_amended sampleEnv sampleFs { sampleReq with pathname := "/other" }).2.1
      (by decide),
   (c7_routing_amended sampleEnv sampleFs { sampleReq with url := none }).2.2
      rfl (by decide)⟩

/-! ## Handler-path characterizations (shared) -/

/-- Characterization of a DirectStream run: response head and body streaming
happen first, then the cookie merge/persist step contributes its events and
file-system effect. -/
theorem handle_direct_eq (env : ServeEnv) (fs : FileSystem) (req : Request)
    (state : SessionState) (up : UpstreamResponse)
    (hpath : req.pathname = "/v1")
    (hs : blank req.session = false) (hu : blank req.url = false)
    (hload : loadSession fs (resolveSessionPath (req.session.getD "") env.sessionsDir)
      = .ok state)
    (hfetch : env.fetchResult (req.url.getD "")
      (buildCookieHeader env.now state (env.parseUrl (req.url.getD ""))) = some up)
    (hct : strContains (up.contentType.getD "") "text/html" = false) :
    handle env fs req =
      ([.loadAttempt (resolveSessionPath (req.session.getD "") env.sessionsDir),
        .fetch (req.url.getD "")
          (buildCookieHeader env.now state (env.parseUrl (req.url.getD ""))),
        .writeHead up.statusCode (streamHeaders up (env.parseUrl (req.url.getD ""))),
        .pipeBody]
        ++ (updateSessionCookies env state
              (resolveSessionPath (req.session.getD "") env.sessionsDir) up
              (env.parseUrl (req.url.getD "")).hostname fs).1,
       (updateSessionCookies env state
          (resolveSessionPath (req.session.getD "") env.sessionsDir) up
          (env.parseUrl (req.url.getD "")).hostname fs).2) := by
  unfold handle
  rw [if_neg (by simp [hpath]), if_neg (by simp [hs, hu])]
  simp only [hload, hfetch, hct, Bool.not_false, if_pos]

/-- Characterization of a Render run on a context-cache hit: the context
state is persisted before the response; on persistence failure the client
receives a 500 instead of the rendered document. -/
theorem handle_render_eq (env : ServeEnv) (fs : FileSystem) (req : Request)
    (state : SessionState) (up : UpstreamResponse) (body : String)
    (hpath : req.pathname = "/v1")
    (hs : blank req.session = false) (hu : blank req.url = false)
    (hload : loadSession fs (resolveSessionPath (req.session.getD "") env.sessionsDir)
      = .ok state)
    (hfetch : env.fetchResult (req.url.getD "")
      (buildCookieHeader env.now state (env.parseUrl (req.url.getD ""))) = some up)
    (hct : strContains (up.contentType.getD "") "text/html" = true)
    (hcache : env.cacheHit = true)
    (hgoto : env.gotoResult = some body) :
    handle env fs req =
      (if env.persistContextOk then
        ([.loadAttempt (resolveSessionPath (req.session.getD "") env.sessionsDir),
          .fetch (req.url.getD "")
            (buildCookieHeader env.now state (env.parseUrl (req.url.getD ""))),
          .persistContextAttempt (resolveSessionPath (req.session.getD "") env.sessionsDir),
          .writeHead 200 (htmlHeaders (up.contentType.getD "")), .endBody body, .pageClose],
         saveSession fs (resolveSessionPath (req.session.getD "") env.sessionsDir)
           env.contextState)
      else
        ([.loadAttempt (resolveSessionPath (req.session.getD "") env.sessionsDir),
          .fetch (req.url.getD "")
            (buildCookieHeader env.now state (env.parseUrl (req.url.getD ""))),
          .persistContextAttempt (resolveSessionPath (req.session.getD "") env.sessionsDir),
          .pageClose, .writeHead 500 jsonHeaders, .endErr .persistContext], fs)) := by
  unfold handle
  rw [if_neg (by simp [hpath]), if_neg (by simp [hs, hu])]
  simp only [hload, hfetch, hct, hcache, hgoto, Bool.not_true, if_true, if_false]
  by_cases hp : env.persistContextOk = true <;> simp [hp]

/-! ## Claim C3: persistence policy relative to responding -/

/-- C3 counterexample: on a DirectStream run whose upstream response carries
no `Set-Cookie`, the handler responds without ever attempting to persist
session state; and on a Render run whose context persistence fails, the
client receives a 500 instead of the rendered document — so persistence is
neither always attempted before responding nor always unable to block the
response. -/
theorem c3_persist_policy_counterexample :
    ((handle sampleEnv sampleFs sampleReq).1 =
      [.loadAttempt "/s/foo.json",
       .fetch "https://example.com/doc.pdf" "",
       .writeHead 200 { contentType := some "application/pdf",
                        contentDisposition := some "attachment; filename=\"doc.pdf\"",
                        setCookie := none },
       .pipeBody] ∧
     (handle sampleEnv sampleFs sampleReq).1.all (fun e => !isPersistEv e) = true) ∧
    (handle { sampleEnv with
        fetchResult := fun _ _ => some
          { statusCode := 200, contentType := some "text/html; charset=utf-8",
            contentDisposition := none, setCookie := none },
        persistContextOk := false } sampleFs sampleReq).1 =
      [.loadAttempt "/s/foo.json",
       .fetch "https://example.com/doc.pdf" "",
       .persistContextAttempt "/s/foo.json", .pageClose,
       .writeHead 500 jsonHeaders, .endErr .persistContext] := by
  exact ⟨⟨by decide, by decide⟩, by decide⟩

/-- C3 (amended): on the DirectStream path persistence is attempted only
when the upstream response carries `Set-Cookie` directives, and then only
after the response has started streaming — the event sequence is the same
whether or not the save succeeds, so a persistence failure cannot prevent
the response.  On the Render path persistence is attempted before
responding: on success the rendered document follows the persist attempt,
and on persistence failure the handler sends a 500 instead. -/
theorem c3_persist_policy_amended (env : ServeEnv) (fs : FileSystem) (req : Request)
    (state : SessionState) (up : UpstreamResponse)
    (hpath : req.pathname = "/v1")
    (hs : blank req.session = false) (hu : blank req.url = false)
    (hload : loadSession fs (resolveSessionPath (req.session.getD "") env.sessionsDir)
      = .ok state)
    (hfetch : env.fetchResult (req.url.getD "")
      (buildCookieHeader env.now state (env.parseUrl (req.url.getD ""))) = some up) :
    (strContains (up.contentType.getD "") "text/html" = false →
      up.setCookie = none →
      (handle env fs req).1 =
        [.loadAttempt (resolveSessionPath (req.session.getD "") env.sessionsDir),
         .fetch (req.url.getD "")
           (buildCookieHeader env.now state (env.parseUrl (req.url.getD ""))),
         .writeHead up.statusCode (streamHeaders up (env.parseUrl (req.url.getD ""))),
         .pipeBody]) ∧
    (∀ r rs, strContains (up.contentType.getD "") "text/html" = false →
      up.setCookie = some (r :: rs) →
      (handle env fs req).1 =
        [.loadAttempt (resolveSessionPath (req.session.getD "") env.sessionsDir),
         .fetch (req.url.getD "")
           (buildCookieHeader env.now state (env.parseUrl (req.url.getD ""))),
         .writeHead up.statusCode (streamHeaders up (env.parseUrl (req.url.getD ""))),
         .pipeBody,
         .saveAttempt (resolveSessionPath (req.session.getD "") env.sessionsDir)]) ∧
    (∀ body, strContains (up.contentType.getD "") "text/html" = true →
      env.cacheHit = true → env.gotoResult = some body →
      env.persistContextOk = true →
      (handle env fs req).1 =
        [.loadAttempt (resolveSessionPath (req.session.getD "") env.sessionsDir),
         .fetch (req.url.getD "")
           (buildCookieHeader env.now state (env.parseUrl (req.url.getD ""))),
         .persistContextAttempt (resolveSessionPath (req.session.getD "") env.sessionsDir),
         .writeHead 200 (htmlHeaders (up.contentType.getD "")), .endBody body, .pageClose]) ∧
    (∀ body, strContains (up.contentType.getD "") "text/html" = true →
      env.cacheHit = true → env.gotoResult = some body →
      env.persistContextOk = false →
      (handle env fs req).1 =
        [.loadAttempt (resolveSessionPath (req.session.getD "") env.sessionsDir),
         .fetch (req.url.getD "")
           (buildCookieHeader env.now state (env.parseUrl (req.url.getD ""))),
         .persistContextAttempt (resolveSessionPath (req.session.getD "") env.sessionsDir),
         .pageClose, .writeHead 500 jsonHeaders, .endErr .persistContext]) := by
  refine ⟨?_, ?_, ?_, ?_⟩
  · intro hct hsc
    rw [handle_direct_eq env fs req state up hpath hs hu hload hfetch hct]
    simp [updateSessionCookies, hsc]
  · intro r rs hct hsc
    rw [handle_direct_eq env fs req state up hpath hs hu hload hfetch hct]
    by_cases hso : env.saveOk = true <;>
      simp [updateSessionCookies, hsc, hso]
  · intro body hct hcache hgoto hp
    rw [handle_render_eq env fs req state up body hpath hs hu hload hfetch hct hcache hgoto]
    rw [if_pos hp]
  · intro body hct hcache hgoto hp
    rw [handle_render_eq env fs req state up body hpath hs hu hload hfetch hct hcache hgoto]
    rw [if_neg (by simp [hp])]

/-- C3 witness. -/
theorem c3_persist_policy_witness :
    (handle { sampleEnv with
        fetchResult := fun _ _ => some { samplePdf with setCookie := some ["sid=1"] },
        saveOk := false } sampleFs sampleReq).1 =
      [.loadAttempt "/s/foo.json",
       .fetch "https://example.com/doc.pdf" "",
       .writeHead 200 (streamHeaders { samplePdf with setCookie := some ["sid=1"] }
         ⟨"https:", "example.com", "/doc.pdf"⟩),
       .pipeBody, .saveAttempt "/s/foo.json"] :=
  (c3_persist_policy_amended
    { sampleEnv with
      fetchResult := fun _ _ => some { samplePdf with setCookie := some ["sid=1"] },
      saveOk := false }
    sampleFs sampleReq ⟨[], .arr []⟩ { samplePdf with setCookie := some ["sid=1"] }
    rfl (by decide) (by decide) rfl rfl).2.1 "sid=1" [] (by decide) rfl

/-! ## Claim C10: no `Set-Cookie` means no session write -/

/-- C10: when the upstream response of a DirectStream run carries no
`Set-Cookie` header (absent, or an empty list), `updateSessionCookies`
returns immediately with no events and no file-system change, and the whole
request leaves the persisted session state untouched. -/
theorem c10_no_set_cookie_frame (env : ServeEnv) (fs : FileSystem) (req : Request)
    (state : SessionState) (up : UpstreamResponse)
    (hpath : req.pathname = "/v1")
    (hs : blank req.session = false) (hu : blank req.url = false)
    (hload : loadSession fs (resolveSessionPath (req.session.getD "") env.sessionsDir)
      = .ok state)
    (hfetch : env.fetchResult (req.url.getD "")
      (buildCookieHeader env.now state (env.parseUrl (req.url.getD ""))) = some up)
    (hct : strContains (up.contentType.getD "") "text/html" = false)
    (hsc : up.setCookie = none ∨ up.setCookie = some []) :
    updateSessionCookies env state
      (resolveSessionPath (req.session.getD "") env.sessionsDir) up
      (env.parseUrl (req.url.getD "")).hostname fs = ([], fs) ∧
    handle env fs req =
      ([.loadAttempt (resolveSessionPath (req.session.getD "") env.sessionsDir),
        .fetch (req.url.getD "")
          (buildCookieHeader env.now state (env.parseUrl (req.url.getD ""))),
        .writeHead up.statusCode (streamHeaders up (env.parseUrl (req.url.getD ""))),
        .pipeBody], fs) := by
  have hupd : updateSessionCookies env state
      (resolveSessionPath (req.session.getD "") env.sessionsDir) up
      (env.parseUrl (req.url.getD "")).hostname fs = ([], fs) := by
    rcases hsc with hsc | hsc <;> simp [updateSessionCookies, hsc]
  refine ⟨hupd, ?_⟩
  rw [handle_direct_eq env fs req state up hpath hs hu hload hfetch hct, hupd]
  simp

/-- C10 witness. -/
theorem c10_no_set_cookie_frame_witness :
    updateSessionCookies sampleEnv ⟨[], .arr []⟩
      (resolveSessionPath ((sampleReq.session).getD "") sampleEnv.sessionsDir) samplePdf
      (sampleEnv.parseUrl ((sampleReq.url).getD "")).hostname sampleFs = ([], sampleFs) ∧
    handle sampleEnv sampleFs sampleReq =
      ([.loadAttempt (resolveSessionPath ((sampleReq.session).getD "") sampleEnv.sessionsDir),
        .fetch ((sampleReq.url).getD "")
          (buildCookieHeader sampleEnv.now ⟨[], .arr []⟩
            (sampleEnv.parseUrl ((sampleReq.url).getD ""))),
        .writeHead samplePdf.statusCode
          (streamHeaders samplePdf (sampleEnv.parseUrl ((sampleReq.url).getD ""))),
        .pipeBody], sampleFs) :=
  c10_no_set_cookie_frame sampleEnv sampleFs sampleReq ⟨[], .arr []⟩ samplePdf
    rfl (by decide) (by decide) rfl rfl (by decide) (Or.inl rfl)

end SessionProxy
